import Mathlib

/-!
Shallow embedding of the trace-assembly core of `dd-opentracing-cpp`
(`src/span_buffer.cpp`), together with a spec-modelled sampler module.

Machine doubles that use NaN as "unset" are modelled as `Option ℚ`
(`none` = NaN/unset); 64-bit identifiers are modelled as `Nat` (no
arithmetic is ever performed on them).  The `std::map`/`std::unordered_map`
registries are modelled as association lists with first-match lookup.
Mutexes are elided: every operation is already a whole-lock critical
section, so each becomes one pure state transformer.
-/

namespace DD

/-- Sampling priority enumeration (`SamplingPriority` in the C++ source). -/
inductive SamplingPriority
  | UserDrop
  | SamplerDrop
  | SamplerKeep
  | UserKeep
deriving DecidableEq

/-- The wire integer encoding of a sampling priority
(`static_cast<int>` of the C++ enum values). -/
def SamplingPriority.toInt : SamplingPriority → Int
  | .UserDrop => -1
  | .SamplerDrop => 0
  | .SamplerKeep => 1
  | .UserKeep => 2

/-- `OptionalSamplingPriority` (a nullable `std::unique_ptr` in the source). -/
abbrev OptionalSamplingPriority := Option SamplingPriority

/-- `SampleResult`: outcome of a sampling attempt.  A `none` rate stands
for the NaN ("unset") double of the source. -/
structure SampleResult where
  rule_rate : Option ℚ := none
  limiter_rate : Option ℚ := none
  priority_rate : Option ℚ := none
  sampling_priority : OptionalSamplingPriority := none
deriving DecidableEq

/-- `SpanData`: the per-span record produced by the API surface.
`meta` and `metrics` are the mutable string/numeric tag maps. -/
structure SpanData where
  trace_id : Nat
  span_id : Nat
  parent_id : Nat
  service : String := ""
  name : String := ""
  env : String := ""
  meta : List (String × String) := []
  metrics : List (String × ℚ) := []
deriving DecidableEq

/-- `PendingTrace`: per-trace aggregate held by the span buffer. -/
structure PendingTrace where
  all_spans : List Nat := []
  finished_spans : List SpanData := []
  sampling_priority : OptionalSamplingPriority := none
  sampling_priority_locked : Bool := false
  origin : String := ""
  hostname : String := ""
  analytics_rate : Option ℚ := none
  sample_result : SampleResult := {}
deriving DecidableEq

/-- `SpanContext`: the read-only accessors the buffer consumes at
registration time (`traceId()`, `id()`, `getPropagatedSamplingPriority()`,
`origin()`). -/
structure SpanContext where
  trace_id : Nat
  span_id : Nat
  propagated_sampling_priority : OptionalSamplingPriority := none
  origin : String := ""
deriving DecidableEq

/-- `WritingSpanBufferOptions`. -/
structure WritingSpanBufferOptions where
  enabled : Bool := true
  hostname : String := ""
  analytics_rate : Option ℚ := none
deriving DecidableEq

/-- The whole observable state of a `WritingSpanBuffer`: the trace
registry, the traces handed to the `Writer`, and the logger output. -/
structure BufferState where
  traces : List (Nat × PendingTrace) := []
  written : List (List SpanData) := []
  log : List String := []
deriving DecidableEq

/-- The sampler capability consumed by the buffer:
`sample(environment, service, name, trace_id)`. -/
abbrev Sampler := String → String → String → Nat → SampleResult

/-- First-match lookup in the trace registry (`traces_.find`). -/
def lookupTrace : List (Nat × PendingTrace) → Nat → Option PendingTrace
  | [], _ => none
  | p :: rest, k => if p.1 = k then some p.2 else lookupTrace rest k

/-- Replace the entry (entries) stored under a key
(`trace_iter->second = ...` through a map iterator). -/
def updateTrace : List (Nat × PendingTrace) → Nat → PendingTrace → List (Nat × PendingTrace)
  | [], _, _ => []
  | p :: rest, k, v => if p.1 = k then (k, v) :: updateTrace rest k v else p :: updateTrace rest k v

/-- Remove a key from the registry (`traces_.erase`). -/
def eraseTrace : List (Nat × PendingTrace) → Nat → List (Nat × PendingTrace)
  | [], _ => []
  | p :: rest, k => if p.1 = k then eraseTrace rest k else p :: eraseTrace rest k

/-- `std::unordered_set::insert`: add an id unless already present. -/
def insertId (l : List Nat) (x : Nat) : List Nat :=
  if x ∈ l then l else l ++ [x]

/-- First-match lookup in a tag map. -/
def mapLookup {β : Type} : List (String × β) → String → Option β
  | [], _ => none
  | p :: rest, k => if p.1 = k then some p.2 else mapLookup rest k

/-- `std::map::operator[] = v`: assign through a key, inserting it if
absent. -/
def mapAssign {β : Type} : List (String × β) → String → β → List (String × β)
  | [], k, v => [(k, v)]
  | p :: rest, k, v => if p.1 = k then (k, v) :: rest else p :: mapAssign rest k v

/-- Reserved tag name `_sampling_priority_v1`. -/
def sampling_priority_metric : String := "_sampling_priority_v1"

/-- Reserved tag name `_dd.origin`. -/
def datadog_origin_tag : String := "_dd.origin"

/-- Reserved tag name `_dd.hostname`. -/
def datadog_hostname_tag : String := "_dd.hostname"

/-- Reserved tag name `_dd1.sr.eausr`. -/
def event_sample_rate_metric : String := "_dd1.sr.eausr"

/-- Reserved tag name `_dd.rule_psr`. -/
def rules_sampler_applied_rate : String := "_dd.rule_psr"

/-- Reserved tag name `_dd.limit_psr`. -/
def rules_sampler_limiter_rate : String := "_dd.limit_psr"

/-- Reserved tag name `_dd.agent_psr`. -/
def priority_sampler_applied_rate : String := "_dd.agent_psr"

/-- Whether `span` has no parent among `all_spans_in_trace`
(`is_root` in the source). -/
def is_root (span : SpanData) (all_spans_in_trace : List Nat) : Bool :=
  span.parent_id = 0 || !(all_spans_in_trace.contains span.parent_id)

/-- `finish_span`: tagging applied to every span of a finishing trace. -/
def finish_span (trace : PendingTrace) (span : SpanData) : SpanData :=
  if trace.origin ≠ "" then
    { span with meta := mapAssign span.meta datadog_origin_tag trace.origin }
  else span

/-- `finish_root_span`: additional tagging applied to a root
(or local-root) span of a finishing trace. -/
def finish_root_span (trace : PendingTrace) (span : SpanData) : SpanData :=
  let s1 :=
    match trace.sampling_priority with
    | some p => { span with metrics := mapAssign span.metrics sampling_priority_metric (p.toInt : ℚ) }
    | none => span
  let s2 :=
    if trace.hostname ≠ "" then
      { s1 with meta := mapAssign s1.meta datadog_hostname_tag trace.hostname }
    else s1
  let s3 :=
    match trace.analytics_rate with
    | some r =>
      if mapLookup s2.metrics event_sample_rate_metric = none then
        { s2 with metrics := mapAssign s2.metrics event_sample_rate_metric r }
      else s2
    | none => s2
  let s4 :=
    match trace.sample_result.rule_rate with
    | some r => { s3 with metrics := mapAssign s3.metrics rules_sampler_applied_rate r }
    | none => s3
  let s5 :=
    match trace.sample_result.limiter_rate with
    | some r => { s4 with metrics := mapAssign s4.metrics rules_sampler_limiter_rate r }
    | none => s4
  let s6 :=
    match trace.sample_result.priority_rate with
    | some r => { s5 with metrics := mapAssign s5.metrics priority_sampler_applied_rate r }
    | none => s5
  finish_span trace s6

/-- The per-span finalization step selected inside `PendingTrace::finish`. -/
def finalizeSpan (trace : PendingTrace) (span : SpanData) : SpanData :=
  if is_root span trace.all_spans then finish_root_span trace span else finish_span trace span

/-- `PendingTrace::finish`: mutate every finished span for encoding. -/
def PendingTrace.finish (trace : PendingTrace) : PendingTrace :=
  { trace with finished_spans := trace.finished_spans.map (finalizeSpan trace) }

/-- `WritingSpanBuffer::registerSpan`. -/
def registerSpan (options : WritingSpanBufferOptions) (context : SpanContext)
    (st : BufferState) : BufferState :=
  match lookupTrace st.traces context.trace_id with
  | some tr =>
    if tr.all_spans = [] then
      -- `emplace` is a no-op on an existing key; the subsequent field
      -- assignments land on the existing entry.
      let tr1 := { tr with
        sampling_priority_locked := context.propagated_sampling_priority.isSome,
        sampling_priority := context.propagated_sampling_priority,
        origin := if context.origin ≠ "" then context.origin else tr.origin,
        hostname := options.hostname,
        analytics_rate := options.analytics_rate }
      let tr2 := { tr1 with all_spans := insertId tr1.all_spans context.span_id }
      { st with traces := updateTrace st.traces context.trace_id tr2 }
    else
      let tr2 := { tr with all_spans := insertId tr.all_spans context.span_id }
      { st with traces := updateTrace st.traces context.trace_id tr2 }
  | none =>
    let tr1 : PendingTrace := {
      sampling_priority_locked := context.propagated_sampling_priority.isSome,
      sampling_priority := context.propagated_sampling_priority,
      origin := if context.origin ≠ "" then context.origin else "",
      hostname := options.hostname,
      analytics_rate := options.analytics_rate,
      all_spans := insertId [] context.span_id }
    { st with traces := st.traces ++ [(context.trace_id, tr1)] }

/-- `WritingSpanBuffer::getSamplingPriorityImpl`: returns the (possibly
logging) state and the stored priority, copied. -/
def getSamplingPriorityImpl (st : BufferState) (trace_id : Nat) :
    BufferState × OptionalSamplingPriority :=
  match lookupTrace st.traces trace_id with
  | none =>
    ({ st with log := st.log ++ ["cannot get sampling priority, trace not found"] }, none)
  | some tr => (st, tr.sampling_priority)

/-- `WritingSpanBuffer::setSamplingPriorityImpl`. -/
def setSamplingPriorityImpl (st : BufferState) (trace_id : Nat)
    (priority : OptionalSamplingPriority) : BufferState × OptionalSamplingPriority :=
  match lookupTrace st.traces trace_id with
  | none =>
    ({ st with log := st.log ++ ["cannot set sampling priority, trace not found"] }, none)
  | some tr =>
    if tr.sampling_priority_locked then
      let st1 :=
        if priority = none ∨ priority = some .UserKeep ∨ priority = some .UserDrop then
          { st with log := st.log ++ ["sampling priority already set and cannot be reassigned"] }
        else st
      getSamplingPriorityImpl st1 trace_id
    else
      let tr1 :=
        match priority with
        | none => { tr with sampling_priority := none }
        | some p =>
          let t := { tr with sampling_priority := some p }
          if p = .SamplerDrop ∨ p = .SamplerKeep then
            { t with sampling_priority_locked := true }
          else t
      getSamplingPriorityImpl { st with traces := updateTrace st.traces trace_id tr1 } trace_id

/-- `WritingSpanBuffer::setSamplerResult`: record the sampler's rates on
the trace; the result's priority is copied only when non-null. -/
def setSamplerResult (st : BufferState) (trace_id : Nat) (sample_result : SampleResult) :
    BufferState :=
  match lookupTrace st.traces trace_id with
  | none =>
    { st with log := st.log ++ ["cannot assign rules sampler result, trace not found"] }
  | some tr =>
    let tr1 := { tr with sample_result := { tr.sample_result with
      rule_rate := sample_result.rule_rate,
      limiter_rate := sample_result.limiter_rate,
      priority_rate := sample_result.priority_rate } }
    let tr2 :=
      match sample_result.sampling_priority with
      | some p => { tr1 with sample_result := { tr1.sample_result with sampling_priority := some p } }
      | none => tr1
    { st with traces := updateTrace st.traces trace_id tr2 }

/-- `WritingSpanBuffer::assignSamplingPriorityImpl`.  Note that the C++
moves `sampler_result.sampling_priority` into `setSamplingPriorityImpl`
before calling `setSamplerResult`, so the latter sees a null priority. -/
def assignSamplingPriorityImpl (sampler : Sampler) (span : SpanData) (st : BufferState) :
    BufferState × OptionalSamplingPriority :=
  let g := getSamplingPriorityImpl st span.trace_id
  let st1 :=
    if g.2 = none then
      let sr := sampler span.env span.service span.name span.trace_id
      let st2 := (setSamplingPriorityImpl g.1 span.trace_id sr.sampling_priority).1
      setSamplerResult st2 span.trace_id { sr with sampling_priority := none }
    else g.1
  getSamplingPriorityImpl st1 span.trace_id

/-- The `trace.finish()` step of `finishSpan`, performed through the map
entry the C++ holds by reference. -/
def pendingTraceFinish (st : BufferState) (trace_id : Nat) : BufferState :=
  match lookupTrace st.traces trace_id with
  | none => st
  | some tr => { st with traces := updateTrace st.traces trace_id tr.finish }

/-- `WritingSpanBuffer::unbufferAndWriteTrace`. -/
def unbufferAndWriteTrace (options : WritingSpanBufferOptions) (trace_id : Nat)
    (st : BufferState) : BufferState :=
  match lookupTrace st.traces trace_id with
  | none => st
  | some tr =>
    let st1 :=
      if options.enabled then { st with written := st.written ++ [tr.finished_spans] } else st
    { st1 with traces := eraseTrace st1.traces trace_id }

/-- `WritingSpanBuffer::finishSpan`. -/
def finishSpan (sampler : Sampler) (options : WritingSpanBufferOptions)
    (span : SpanData) (st : BufferState) : BufferState :=
  match lookupTrace st.traces span.trace_id with
  | none => { st with log := st.log ++ ["Missing trace for finished span"] }
  | some tr =>
    if span.span_id ∈ tr.all_spans then
      let tr1 := { tr with finished_spans := tr.finished_spans ++ [span] }
      let st1 := { st with traces := updateTrace st.traces span.trace_id tr1 }
      if tr1.finished_spans.length = tr1.all_spans.length then
        -- `assignSamplingPriorityImpl(trace.finished_spans->back().get())`
        match tr1.finished_spans.getLast? with
        | some last =>
          let st2 := (assignSamplingPriorityImpl sampler last st1).1
          let st3 := pendingTraceFinish st2 span.trace_id
          unbufferAndWriteTrace options span.trace_id st3
        | none => st1  -- unreachable: a span was just appended
      else st1
    else
      { st with log :=
          st.log ++ ["A Span that was not registered was submitted to WritingSpanBuffer"] }

/-- Fold a sequence of `finishSpan` calls over a buffer state. -/
def finishAll (sampler : Sampler) (options : WritingSpanBufferOptions)
    (spans : List SpanData) (st : BufferState) : BufferState :=
  spans.foldl (fun s sp => finishSpan sampler options sp s) st

/-- Modelled from the spec: a sampling rule of the `RulesSampler`
(`src/sample.cpp` is not part of the provided sources; only its tests
are).  A rule has optional `name` and `service` constraints and a
sample rate. -/
structure Rule where
  name : Option String := none
  service : Option String := none
  sample_rate : ℚ := 1
deriving DecidableEq

/-- Modelled from the spec: a rule matches when every field it specifies
equals the corresponding input. -/
def ruleMatches (r : Rule) (service name : String) : Bool :=
  (match r.name with | none => true | some n => n = name) &&
  (match r.service with | none => true | some s => s = service)

/-- Modelled from the spec: first-match scan of the ordered rule list,
returning the matched rule's rate. -/
def matchRules : List Rule → String → String → Option ℚ
  | [], _, _ => none
  | r :: rest, service, name =>
    if ruleMatches r service name then some r.sample_rate else matchRules rest service name

/-- Modelled from the spec: `PrioritySampler::sample` (the sampler module
is not under the provided sources).  `config` maps composite keys
`service:S,env:E` to rates; absent keys use the default rate 1; the
deterministic trace-id hash is abstracted as `hash : Nat → ℚ`. -/
def prioritySample (config : List (String × ℚ)) (hash : Nat → ℚ)
    (env service : String) (trace_id : Nat) : SampleResult :=
  let rate := (mapLookup config ("service:" ++ service ++ ",env:" ++ env)).getD 1
  { sampling_priority := some (if hash trace_id < rate then .SamplerKeep else .SamplerDrop),
    priority_rate := some rate }

/-- Modelled from the spec: `RulesSampler::sample` (the sampler module is
not under the provided sources).  The Limiter's admit/deny outcome and
effective rate for the current call are abstracted as the two
`limiter*` arguments. -/
def rulesSample (rules : List Rule) (config : List (String × ℚ)) (hash : Nat → ℚ)
    (limiterAllows : Bool) (limiterRate : ℚ)
    (env service name : String) (trace_id : Nat) : SampleResult :=
  match matchRules rules service name with
  | none => prioritySample config hash env service trace_id
  | some rate =>
    if hash trace_id < rate then
      if limiterAllows then
        { sampling_priority := some .UserKeep, rule_rate := some rate,
          limiter_rate := some limiterRate }
      else
        { sampling_priority := some .UserDrop, rule_rate := some rate,
          limiter_rate := some limiterRate }
    else
      { sampling_priority := some .UserDrop, rule_rate := some rate }

/-- A constant test sampler used by the concrete witnesses. -/
def samp0 : Sampler := fun _ _ _ _ =>
  { sampling_priority := some SamplingPriority.SamplerKeep, priority_rate := some 1 }

/-- Buffer options used by the concrete witnesses. -/
def opts0 : WritingSpanBufferOptions := { enabled := true, hostname := "host" }

/-- A trace with a locked sampling priority, used by witnesses. -/
def lockedTr : PendingTrace :=
  { all_spans := [7], sampling_priority := some SamplingPriority.SamplerKeep,
    sampling_priority_locked := true }

/-- A buffer state holding `lockedTr` under trace id 1. -/
def lockedState : BufferState := { traces := [(1, lockedTr)] }

/-- An unlocked trace with one registered span, used by witnesses. -/
def openTr : PendingTrace := { all_spans := [7] }

/-- A buffer state holding `openTr` under trace id 3. -/
def openState : BufferState := { traces := [(3, openTr)] }

/-- An empty two-span trace, used by the exactly-once witness. -/
def pairTr : PendingTrace := { all_spans := [10, 11] }

/-- A buffer state holding `pairTr` under trace id 1. -/
def pairState : BufferState := { traces := [(1, pairTr)] }

/-- Root span of the witness trace. -/
def rootSpan : SpanData := { trace_id := 1, span_id := 10, parent_id := 0 }

/-- Child span of the witness trace. -/
def childSpan : SpanData := { trace_id := 1, span_id := 11, parent_id := 10 }

/-- A span whose trace id is registered nowhere. -/
def orphanSpan : SpanData := { trace_id := 99, span_id := 1, parent_id := 0 }

/-- A fully populated trace used by the tag-placement witness. -/
def tagTr : PendingTrace :=
  { all_spans := [10, 11], sampling_priority := some SamplingPriority.UserKeep,
    origin := "org", hostname := "hn", analytics_rate := some 1,
    sample_result := { rule_rate := some 1, limiter_rate := some 0,
                       priority_rate := none } }

/-- Registration context used by the propagation witness. -/
def ctxW : SpanContext :=
  { trace_id := 2, span_id := 20,
    propagated_sampling_priority := some SamplingPriority.UserKeep, origin := "o" }

/-- A one-rule configuration matching nothing in the fallback witness. -/
def rulesW : List Rule :=
  [{ name := some "unmatched.name", service := some "unmatched.service",
     sample_rate := 1 }]

/-- A constant trace-id hash used by the fallback witness. -/
def hashW : Nat → ℚ := fun _ => 0

/-- A single-span trace one span away from completion, priority set. -/
def oneTr : PendingTrace :=
  { all_spans := [7], sampling_priority := some SamplingPriority.SamplerKeep }

/-- A buffer state holding `oneTr` under trace id 1. -/
def oneState : BufferState := { traces := [(1, oneTr)] }

/-- The span completing `oneTr`. -/
def oneSpan : SpanData := { trace_id := 1, span_id := 7, parent_id := 0 }

end DD

namespace DD

/-- Lookup after an update at the same key. -/
theorem lookupTrace_update_self {m : List (Nat × PendingTrace)} {k : Nat} {tr : PendingTrace}
    (v : PendingTrace) (h : lookupTrace m k = some tr) :
    lookupTrace (updateTrace m k v) k = some v := by
  induction m with
  | nil => simp [lookupTrace] at h
  | cons p rest ih =>
    by_cases hk : p.1 = k
    · simp [lookupTrace, updateTrace, hk]
    · rw [lookupTrace, if_neg hk] at h
      rw [updateTrace, if_neg hk, lookupTrace, if_neg hk]
      exact ih h

/-- Updating twice at the same key collapses to the second update. -/
theorem updateTrace_updateTrace (m : List (Nat × PendingTrace)) (k : Nat)
    (v v' : PendingTrace) : updateTrace (updateTrace m k v) k v' = updateTrace m k v' := by
  induction m with
  | nil => simp [updateTrace]
  | cons p rest ih =>
    by_cases hk : p.1 = k
    · simp [updateTrace, hk, ih]
    · simp [updateTrace, hk, ih]

/-- Erasing a key removes any update stored under it. -/
theorem eraseTrace_update (m : List (Nat × PendingTrace)) (k : Nat) (v : PendingTrace) :
    eraseTrace (updateTrace m k v) k = eraseTrace m k := by
  induction m with
  | nil => simp [updateTrace, eraseTrace]
  | cons p rest ih =>
    by_cases hk : p.1 = k
    · simp [updateTrace, eraseTrace, hk, ih]
    · simp [updateTrace, eraseTrace, hk, ih]

/-- An erased key is no longer found. -/
theorem lookupTrace_erase_self (m : List (Nat × PendingTrace)) (k : Nat) :
    lookupTrace (eraseTrace m k) k = none := by
  induction m with
  | nil => simp [eraseTrace, lookupTrace]
  | cons p rest ih =>
    by_cases hk : p.1 = k
    · simp [eraseTrace, hk, ih]
    · simp [eraseTrace, lookupTrace, hk, ih]

/-- Appending a fresh key makes it found. -/
theorem lookupTrace_append_fresh {m : List (Nat × PendingTrace)} {k : Nat}
    (v : PendingTrace) (h : lookupTrace m k = none) :
    lookupTrace (m ++ [(k, v)]) k = some v := by
  induction m with
  | nil => simp [lookupTrace]
  | cons p rest ih =>
    by_cases hk : p.1 = k
    · simp [lookupTrace, hk] at h
    · simp only [lookupTrace, if_neg hk] at h
      simp only [List.cons_append, lookupTrace, if_neg hk]
      exact ih h

/-- Assigning a key makes it map to the assigned value. -/
theorem mapLookup_mapAssign_self {β : Type} (l : List (String × β)) (k : String) (v : β) :
    mapLookup (mapAssign l k v) k = some v := by
  induction l with
  | nil => simp [mapAssign, mapLookup]
  | cons p rest ih =>
    by_cases hk : p.1 = k
    · simp [mapAssign, mapLookup, hk]
    · simp [mapAssign, mapLookup, hk, ih]

/-- Assigning one key leaves every other key's binding unchanged. -/
theorem mapLookup_mapAssign_other {β : Type} (l : List (String × β)) {k k' : String}
    (v : β) (h : k' ≠ k) : mapLookup (mapAssign l k v) k' = mapLookup l k' := by
  induction l with
  | nil =>
    have hne : ¬ k = k' := fun hh => h hh.symm
    simp [mapAssign, mapLookup, hne]
  | cons p rest ih =>
    by_cases hk : p.1 = k
    · have : ¬ k = k' := fun hh => h hh.symm
      simp [mapAssign, mapLookup, hk, this, hk ▸ this]
    · simp only [mapAssign, if_neg hk, mapLookup]
      by_cases hk' : p.1 = k'
      · simp [hk']
      · simp [hk', ih]

end DD

namespace DD

/-- Reading the priority of a registered trace returns it without
touching the state. -/
theorem getSP_of_some {st : BufferState} {tid : Nat} {tr : PendingTrace}
    (h : lookupTrace st.traces tid = some tr) :
    getSamplingPriorityImpl st tid = (st, tr.sampling_priority) := by
  simp [getSamplingPriorityImpl, h]

/-- Characterization of `setSamplingPriorityImpl` on a locked trace:
the registry is untouched, the stored priority is returned, and the
diagnostic is logged exactly for a null or user-level argument. -/
theorem setSP_locked_eq {st : BufferState} {tid : Nat} {tr : PendingTrace}
    (p : OptionalSamplingPriority) (h : lookupTrace st.traces tid = some tr)
    (hl : tr.sampling_priority_locked = true) :
    setSamplingPriorityImpl st tid p =
      ({ st with log :=
          if p = none ∨ p = some .UserKeep ∨ p = some .UserDrop then
            st.log ++ ["sampling priority already set and cannot be reassigned"]
          else st.log }, tr.sampling_priority) := by
  by_cases hp : p = none ∨ p = some .UserKeep ∨ p = some .UserDrop
  · have h' : lookupTrace
        (BufferState.mk st.traces st.written
          (st.log ++ ["sampling priority already set and cannot be reassigned"])).traces tid
        = some tr := h
    simp [setSamplingPriorityImpl, h, hl, hp, getSP_of_some h']
  · simp [setSamplingPriorityImpl, h, hl, hp, getSP_of_some h]

/-- Characterization of `setSamplingPriorityImpl` with a null priority on
an unlocked trace: the stored priority is cleared and `none` returned. -/
theorem setSP_unlocked_none_eq {st : BufferState} {tid : Nat} {tr : PendingTrace}
    (h : lookupTrace st.traces tid = some tr)
    (hl : tr.sampling_priority_locked = false) :
    setSamplingPriorityImpl st tid none =
      ({ st with traces := updateTrace st.traces tid { tr with sampling_priority := none } },
       none) := by
  have h2 := lookupTrace_update_self (m := st.traces)
    { tr with sampling_priority := none } h
  rw [hl] at h2
  simp [setSamplingPriorityImpl, h, hl, getSamplingPriorityImpl, h2]

/-- Characterization of `setSamplingPriorityImpl` with a concrete priority
on an unlocked trace: the value is stored, automatic values lock. -/
theorem setSP_unlocked_some_eq {st : BufferState} {tid : Nat} {tr : PendingTrace}
    (p : SamplingPriority) (h : lookupTrace st.traces tid = some tr)
    (hl : tr.sampling_priority_locked = false) :
    setSamplingPriorityImpl st tid (some p) =
      ({ st with traces :=
                   updateTrace st.traces tid
                     (if p = .SamplerDrop ∨ p = .SamplerKeep then
                       { tr with sampling_priority := some p, sampling_priority_locked := true }
                     else { tr with sampling_priority := some p }) },
       some p) := by
  by_cases hp : p = .SamplerDrop ∨ p = .SamplerKeep
  · have h2 := lookupTrace_update_self (m := st.traces)
      { tr with sampling_priority := some p, sampling_priority_locked := true } h
    simp [setSamplingPriorityImpl, h, hl, hp, getSamplingPriorityImpl, h2]
  · have h2 := lookupTrace_update_self (m := st.traces)
      { tr with sampling_priority := some p } h
    rw [hl] at h2
    simp [setSamplingPriorityImpl, h, hl, hp, getSamplingPriorityImpl, h2]

end DD

namespace DD

/-- Characterization of `setSamplerResult` on a registered trace when the
passed result carries no priority (the only way the buffer calls it). -/
theorem setSR_none_eq {st : BufferState} {tid : Nat} {tr : PendingTrace} {sr : SampleResult}
    (h : lookupTrace st.traces tid = some tr) (hp : sr.sampling_priority = none) :
    setSamplerResult st tid sr =
      { st with traces :=
                  updateTrace st.traces tid
                    { tr with sample_result :=
                                { tr.sample_result with
                                    rule_rate := sr.rule_rate,
                                    limiter_rate := sr.limiter_rate,
                                    priority_rate := sr.priority_rate } } } := by
  simp [setSamplerResult, h, hp]

/-- `setSamplingPriorityImpl` keeps the trace registered and leaves its
span bookkeeping, the written traces, and the rest of the registry
unchanged. -/
theorem setSP_pres {st : BufferState} {tid : Nat} {tr : PendingTrace}
    (p : OptionalSamplingPriority) (h : lookupTrace st.traces tid = some tr) :
    ∃ tr', lookupTrace (setSamplingPriorityImpl st tid p).1.traces tid = some tr' ∧
      tr'.finished_spans = tr.finished_spans ∧ tr'.all_spans = tr.all_spans ∧
      (setSamplingPriorityImpl st tid p).1.written = st.written ∧
      (∀ v, updateTrace (setSamplingPriorityImpl st tid p).1.traces tid v
              = updateTrace st.traces tid v) ∧
      eraseTrace (setSamplingPriorityImpl st tid p).1.traces tid = eraseTrace st.traces tid := by
  cases hl : tr.sampling_priority_locked with
  | true =>
    rw [setSP_locked_eq p h hl]
    exact ⟨tr, h, rfl, rfl, rfl, fun _ => rfl, rfl⟩
  | false =>
    cases p with
    | none =>
      rw [setSP_unlocked_none_eq h hl]
      exact ⟨{ tr with sampling_priority := none }, lookupTrace_update_self _ h,
        rfl, rfl, rfl, fun v => updateTrace_updateTrace _ _ _ _, eraseTrace_update _ _ _⟩
    | some q =>
      rw [setSP_unlocked_some_eq q h hl]
      refine ⟨_, lookupTrace_update_self _ h, ?_, ?_, rfl,
        fun v => updateTrace_updateTrace _ _ _ _, eraseTrace_update _ _ _⟩
      · by_cases hq : q = .SamplerDrop ∨ q = .SamplerKeep <;> simp [hq]
      · by_cases hq : q = .SamplerDrop ∨ q = .SamplerKeep <;> simp [hq]

/-- `setSamplerResult` keeps the trace registered, records the rates, and
leaves span bookkeeping, written traces, and the rest of the registry
unchanged. -/
theorem setSR_pres {st : BufferState} {tid : Nat} {tr : PendingTrace} {sr : SampleResult}
    (h : lookupTrace st.traces tid = some tr) (hp : sr.sampling_priority = none) :
    ∃ tr', lookupTrace (setSamplerResult st tid sr).traces tid = some tr' ∧
      tr'.finished_spans = tr.finished_spans ∧ tr'.all_spans = tr.all_spans ∧
      tr'.sample_result.rule_rate = sr.rule_rate ∧
      tr'.sample_result.limiter_rate = sr.limiter_rate ∧
      tr'.sample_result.priority_rate = sr.priority_rate ∧
      (setSamplerResult st tid sr).written = st.written ∧
      (∀ v, updateTrace (setSamplerResult st tid sr).traces tid v
              = updateTrace st.traces tid v) ∧
      eraseTrace (setSamplerResult st tid sr).traces tid = eraseTrace st.traces tid := by
  rw [setSR_none_eq h hp]
  exact ⟨_, lookupTrace_update_self _ h, rfl, rfl, rfl, rfl, rfl, rfl,
    fun v => updateTrace_updateTrace _ _ _ _, eraseTrace_update _ _ _⟩

/-- When the trace priority is already set, `assignSamplingPriorityImpl`
is a pure read: the state is returned unchanged. -/
theorem assign_of_set {sampler : Sampler} {st : BufferState} {tid : Nat} {tr : PendingTrace}
    {sp : SpanData} (h : lookupTrace st.traces tid = some tr) (ht : sp.trace_id = tid)
    (hp : tr.sampling_priority ≠ none) :
    assignSamplingPriorityImpl sampler sp st = (st, tr.sampling_priority) := by
  subst ht
  have hg := getSP_of_some h
  simp [assignSamplingPriorityImpl, hg, hp]

/-- When the trace priority is unset, `assignSamplingPriorityImpl` invokes
the sampler on the supplied span's environment, service, name and trace
id, records the returned rates on the trace, and preserves the span
bookkeeping, written traces, and the rest of the registry. -/
theorem assign_of_unset {sampler : Sampler} {st : BufferState} {tid : Nat} {tr : PendingTrace}
    {sp : SpanData} (h : lookupTrace st.traces tid = some tr) (ht : sp.trace_id = tid)
    (hp : tr.sampling_priority = none) :
    ∃ tr', lookupTrace (assignSamplingPriorityImpl sampler sp st).1.traces tid = some tr' ∧
      tr'.finished_spans = tr.finished_spans ∧ tr'.all_spans = tr.all_spans ∧
      tr'.sample_result.rule_rate = (sampler sp.env sp.service sp.name tid).rule_rate ∧
      tr'.sample_result.limiter_rate = (sampler sp.env sp.service sp.name tid).limiter_rate ∧
      tr'.sample_result.priority_rate = (sampler sp.env sp.service sp.name tid).priority_rate ∧
      (assignSamplingPriorityImpl sampler sp st).1.written = st.written ∧
      (∀ v, updateTrace (assignSamplingPriorityImpl sampler sp st).1.traces tid v
              = updateTrace st.traces tid v) ∧
      eraseTrace (assignSamplingPriorityImpl sampler sp st).1.traces tid
        = eraseTrace st.traces tid := by
  subst ht
  have hg : getSamplingPriorityImpl st sp.trace_id = (st, none) := by
    rw [getSP_of_some h, hp]
  obtain ⟨tr1, h1, hf1, ha1, hw1, hu1, he1⟩ :=
    setSP_pres (sampler sp.env sp.service sp.name sp.trace_id).sampling_priority h
  have hsrp : (SampleResult.mk
      (sampler sp.env sp.service sp.name sp.trace_id).rule_rate
      (sampler sp.env sp.service sp.name sp.trace_id).limiter_rate
      (sampler sp.env sp.service sp.name sp.trace_id).priority_rate
      none).sampling_priority = none := rfl
  obtain ⟨tr2, h2, hf2, ha2, hr2, hl2, hpr2, hw2, hu2, he2⟩ := setSR_pres h1 hsrp
  have hout := getSP_of_some h2
  have hres : (assignSamplingPriorityImpl sampler sp st).1
      = setSamplerResult
          (setSamplingPriorityImpl st sp.trace_id
            (sampler sp.env sp.service sp.name sp.trace_id).sampling_priority).1
          sp.trace_id
          (SampleResult.mk
            (sampler sp.env sp.service sp.name sp.trace_id).rule_rate
            (sampler sp.env sp.service sp.name sp.trace_id).limiter_rate
            (sampler sp.env sp.service sp.name sp.trace_id).priority_rate
            none) := by
    simp [assignSamplingPriorityImpl, hg, hout]
  refine ⟨tr2, ?_, hf2.trans hf1, ha2.trans ha1, ?_, ?_, ?_, ?_, ?_, ?_⟩
  · rw [hres]; exact h2
  · exact hr2
  · exact hl2
  · exact hpr2
  · rw [hres]; exact hw2.trans hw1
  · intro v; rw [hres]; exact (hu2 v).trans (hu1 v)
  · rw [hres]; exact he2.trans he1

/-- The `trace.finish()` step rewrites the trace through its registry
entry. -/
theorem ptFinish_eq {st : BufferState} {tid : Nat} {tr : PendingTrace}
    (h : lookupTrace st.traces tid = some tr) :
    pendingTraceFinish st tid = { st with traces := updateTrace st.traces tid tr.finish } := by
  simp [pendingTraceFinish, h]

/-- `unbufferAndWriteTrace` erases the trace and hands its spans to the
writer exactly when reporting is enabled. -/
theorem unbuffer_eq {opts : WritingSpanBufferOptions} {st : BufferState} {tid : Nat}
    {tr : PendingTrace} (h : lookupTrace st.traces tid = some tr) :
    unbufferAndWriteTrace opts tid st =
      { traces := eraseTrace st.traces tid,
        written := st.written ++ (if opts.enabled then [tr.finished_spans] else []),
        log := st.log } := by
  cases he : opts.enabled <;> simp [unbufferAndWriteTrace, h, he]

end DD

namespace DD

/-- `back()` of a vector that just received a push is the pushed element. -/
theorem getLast_append_singleton {α : Type} (l : List α) (a : α) :
    (l ++ [a]).getLast? = some a := by
  rw [List.getLast?_append_of_ne_nil l (by simp)]
  rfl

/-- `assignSamplingPriorityImpl` keeps the trace registered with the same
finished spans and leaves the written traces unchanged. -/
theorem assign_pres {sampler : Sampler} {st : BufferState} {tid : Nat} {tr : PendingTrace}
    {sp : SpanData} (h : lookupTrace st.traces tid = some tr) (ht : sp.trace_id = tid) :
    ∃ tr', lookupTrace (assignSamplingPriorityImpl sampler sp st).1.traces tid = some tr' ∧
      tr'.finished_spans = tr.finished_spans ∧
      (assignSamplingPriorityImpl sampler sp st).1.written = st.written := by
  cases hp : tr.sampling_priority with
  | none =>
    obtain ⟨tr', h', hf, _, _, _, _, hw, _, _⟩ := assign_of_unset h ht hp
    exact ⟨tr', h', hf, hw⟩
  | some q =>
    rw [assign_of_set h ht (by simp [hp])]
    exact ⟨tr, h, rfl, rfl⟩

/-- A `finishSpan` call that does not reach the registered cardinality
only appends the span to the trace's finished list. -/
theorem finishSpan_not_complete (sampler : Sampler) (opts : WritingSpanBufferOptions)
    {sp : SpanData} {st : BufferState} {tid : Nat} {tr : PendingTrace}
    (h : lookupTrace st.traces tid = some tr) (ht : sp.trace_id = tid)
    (hm : sp.span_id ∈ tr.all_spans)
    (hc : ¬ tr.finished_spans.length + 1 = tr.all_spans.length) :
    finishSpan sampler opts sp st =
      { st with traces :=
                  updateTrace st.traces tid
                    { tr with finished_spans := tr.finished_spans ++ [sp] } } := by
  subst ht
  simp [finishSpan, h, hm, hc]

/-- The completing tail of `finishSpan` (priority assignment, per-span
finalization, unbuffering) erases the trace and appends one written
trace exactly when reporting is enabled. -/
theorem completeTail {sampler : Sampler} {opts : WritingSpanBufferOptions}
    {sp : SpanData} {st : BufferState} {tid : Nat} {tr : PendingTrace}
    (h : lookupTrace st.traces tid = some tr) (ht : sp.trace_id = tid) :
    lookupTrace (unbufferAndWriteTrace opts tid
        (pendingTraceFinish (assignSamplingPriorityImpl sampler sp st).1 tid)).traces tid
      = none ∧
    (unbufferAndWriteTrace opts tid
        (pendingTraceFinish (assignSamplingPriorityImpl sampler sp st).1 tid)).written.length
      = st.written.length + (if opts.enabled then 1 else 0) := by
  obtain ⟨tr2, h2, hf2, hw2⟩ := assign_pres h ht
  rw [ptFinish_eq h2]
  have h3 : lookupTrace
      ({ (assignSamplingPriorityImpl sampler sp st).1 with
          traces := updateTrace (assignSamplingPriorityImpl sampler sp st).1.traces tid
                      tr2.finish } : BufferState).traces tid
      = some tr2.finish := lookupTrace_update_self _ h2
  rw [unbuffer_eq h3]
  constructor
  · exact lookupTrace_erase_self _ _
  · cases he : opts.enabled <;> simp [he, hw2]

/-- A `finishSpan` call that reaches the registered cardinality completes
the trace: it is erased from the registry, and exactly one trace is
handed to the writer when reporting is enabled. -/
theorem finishSpan_complete {sampler : Sampler} {opts : WritingSpanBufferOptions}
    {sp : SpanData} {st : BufferState} {tid : Nat} {tr : PendingTrace}
    (h : lookupTrace st.traces tid = some tr) (ht : sp.trace_id = tid)
    (hm : sp.span_id ∈ tr.all_spans)
    (hc : tr.finished_spans.length + 1 = tr.all_spans.length) :
    lookupTrace (finishSpan sampler opts sp st).traces tid = none ∧
    (finishSpan sampler opts sp st).written.length
      = st.written.length + (if opts.enabled then 1 else 0) := by
  subst ht
  have hlast : (tr.finished_spans ++ [sp]).getLast? = some sp := getLast_append_singleton _ _
  have hstep : finishSpan sampler opts sp st
      = unbufferAndWriteTrace opts sp.trace_id
          (pendingTraceFinish
            (assignSamplingPriorityImpl sampler sp
              { st with traces :=
                          updateTrace st.traces sp.trace_id
                            { tr with finished_spans := tr.finished_spans ++ [sp] } }).1
            sp.trace_id) := by
    simp [finishSpan, h, hm, hc, hlast]
  have h1 : lookupTrace
      ({ st with traces :=
                   updateTrace st.traces sp.trace_id
                     { tr with finished_spans := tr.finished_spans ++ [sp] } } :
        BufferState).traces sp.trace_id
      = some { tr with finished_spans := tr.finished_spans ++ [sp] } :=
    lookupTrace_update_self _ h
  rw [hstep]
  exact completeTail h1 rfl

end DD

namespace DD

/-- Finishing any sequence of registered spans that stays strictly below
the registered cardinality only accumulates finished spans: the trace
stays registered, nothing is written, and the rest of the registry is
untouched. -/
theorem finishAll_below :
    ∀ (sampler : Sampler) (opts : WritingSpanBufferOptions) (tid : Nat)
      (spans : List SpanData) (st : BufferState) (tr : PendingTrace),
      lookupTrace st.traces tid = some tr →
      (∀ sp ∈ spans, sp.trace_id = tid ∧ sp.span_id ∈ tr.all_spans) →
      tr.finished_spans.length + spans.length < tr.all_spans.length →
      lookupTrace (finishAll sampler opts spans st).traces tid
          = some { tr with finished_spans := tr.finished_spans ++ spans } ∧
      (finishAll sampler opts spans st).written = st.written ∧
      (∀ v, updateTrace (finishAll sampler opts spans st).traces tid v
              = updateTrace st.traces tid v) ∧
      eraseTrace (finishAll sampler opts spans st).traces tid = eraseTrace st.traces tid
  | sampler, opts, tid, [], st, tr, h, _, _ => by
    refine ⟨?_, rfl, fun _ => rfl, rfl⟩
    show lookupTrace st.traces tid
      = some { tr with finished_spans := tr.finished_spans ++ [] }
    rw [List.append_nil]
    exact h
  | sampler, opts, tid, sp :: rest, st, tr, h, hall, hcount => by
    have hsp := hall sp (List.mem_cons_self _ _)
    have hc : ¬ tr.finished_spans.length + 1 = tr.all_spans.length := by
      simp only [List.length_cons] at hcount
      omega
    have hstep := finishSpan_not_complete sampler opts h hsp.1 hsp.2 hc
    have h1 : lookupTrace
        ({ st with traces :=
                     updateTrace st.traces tid
                       { tr with finished_spans := tr.finished_spans ++ [sp] } } :
          BufferState).traces tid
        = some { tr with finished_spans := tr.finished_spans ++ [sp] } :=
      lookupTrace_update_self _ h
    have ih := finishAll_below sampler opts tid rest
      ({ st with traces :=
                   updateTrace st.traces tid
                     { tr with finished_spans := tr.finished_spans ++ [sp] } })
      ({ tr with finished_spans := tr.finished_spans ++ [sp] })
      h1
      (fun q hq => (hall q (List.mem_cons_of_mem _ hq)))
      (by simp only [List.length_append, List.length_singleton, List.length_cons,
            List.length_nil] at hcount ⊢
          omega)
    obtain ⟨ih1, ih2, ih3, ih4⟩ := ih
    have hfold : finishAll sampler opts (sp :: rest) st
        = finishAll sampler opts rest (finishSpan sampler opts sp st) := rfl
    rw [hfold, hstep]
    refine ⟨?_, ?_, ?_, ?_⟩
    · rw [ih1]
      simp
    · exact ih2
    · intro v
      exact (ih3 v).trans (updateTrace_updateTrace st.traces tid _ v)
    · exact ih4.trans (eraseTrace_update st.traces tid _)

end DD

namespace DD

/-- C1: for every buffered trace, finishing its registered spans in any
order executes the finalization logic exactly once — namely on the
`finishSpan` call that makes the finished count reach the registered
count: every proper prefix of the finishing sequence writes nothing and
leaves the trace registered, while the full sequence erases the trace
from the registry and hands exactly one trace to the writer (when
reporting is enabled). -/
theorem claim1_finalization_exactly_once
    (sampler : Sampler) (opts : WritingSpanBufferOptions) (tid : Nat) (tr : PendingTrace)
    (spans : List SpanData) (st : BufferState)
    (h1 : lookupTrace st.traces tid = some tr)
    (h2 : tr.finished_spans = [])
    (h3 : List.Perm (spans.map SpanData.span_id) tr.all_spans)
    (h4 : ∀ sp ∈ spans, sp.trace_id = tid)
    (h5 : spans ≠ []) :
    lookupTrace (finishAll sampler opts spans st).traces tid = none ∧
    (finishAll sampler opts spans st).written.length
      = st.written.length + (if opts.enabled then 1 else 0) ∧
    ∀ k < spans.length,
      lookupTrace (finishAll sampler opts (spans.take k) st).traces tid ≠ none ∧
      (finishAll sampler opts (spans.take k) st).written = st.written := by
  have hlen : spans.length = tr.all_spans.length := by
    have hh := h3.length_eq
    simpa using hh
  have hmem : ∀ sp ∈ spans, sp.span_id ∈ tr.all_spans := fun sp hsp =>
    h3.mem_iff.mp (List.mem_map_of_mem _ hsp)
  have hpos : 0 < spans.length := List.length_pos.mpr h5
  have hsplit : spans.dropLast ++ [spans.getLast h5] = spans :=
    List.dropLast_append_getLast h5
  obtain ⟨hb1, hb2, _, _⟩ := finishAll_below sampler opts tid spans.dropLast st tr h1
    (fun sp hsp => ⟨h4 sp (List.dropLast_subset _ hsp), hmem sp (List.dropLast_subset _ hsp)⟩)
    (by rw [h2]
        simp only [List.length_nil, Nat.zero_add, List.length_dropLast]
        omega)
  have hfold : finishAll sampler opts spans st
      = finishSpan sampler opts (spans.getLast h5) (finishAll sampler opts spans.dropLast st) := by
    conv_lhs => rw [← hsplit]
    simp [finishAll, List.foldl_append]
  have hlast_tid : (spans.getLast h5).trace_id = tid := h4 _ (List.getLast_mem h5)
  have hlast_mem : (spans.getLast h5).span_id ∈ tr.all_spans := hmem _ (List.getLast_mem h5)
  have hcnt : ({ tr with finished_spans := tr.finished_spans ++ spans.dropLast } :
        PendingTrace).finished_spans.length + 1
      = ({ tr with finished_spans := tr.finished_spans ++ spans.dropLast } :
        PendingTrace).all_spans.length := by
    simp only [h2, List.nil_append, List.length_dropLast]
    omega
  obtain ⟨hc1, hc2⟩ := finishSpan_complete hb1 hlast_tid hlast_mem hcnt
  refine ⟨?_, ?_, ?_⟩
  · rw [hfold]
    exact hc1
  · rw [hfold, hc2, hb2]
  · intro k hk
    obtain ⟨ht1, ht2, _, _⟩ := finishAll_below sampler opts tid (spans.take k) st tr h1
      (fun sp hsp => ⟨h4 sp (List.take_subset _ _ hsp), hmem sp (List.take_subset _ _ hsp)⟩)
      (by rw [h2]
          simp only [List.length_nil, Nat.zero_add, List.length_take]
          omega)
    exact ⟨by rw [ht1]; simp, ht2⟩

end DD

namespace DD

/-- C2: once a registered trace's sampling priority is locked, a
`setSamplingPriority` call leaves the trace — in particular its stored
sampling priority — unchanged, whatever priority value is supplied. -/
theorem claim2_locked_priority_immutable
    (st : BufferState) (tid : Nat) (tr : PendingTrace) (p : OptionalSamplingPriority)
    (h : lookupTrace st.traces tid = some tr)
    (hl : tr.sampling_priority_locked = true) :
    lookupTrace (setSamplingPriorityImpl st tid p).1.traces tid = some tr := by
  rw [setSP_locked_eq p h hl]
  exact h

/-- C3: registering a span for a fresh trace id seeds the new trace's
sampling priority from the context's propagated priority and locks it
exactly when a priority was propagated. -/
theorem claim3_propagated_priority_locks
    (opts : WritingSpanBufferOptions) (ctx : SpanContext) (st : BufferState)
    (h : lookupTrace st.traces ctx.trace_id = none) :
    ∃ tr, lookupTrace (registerSpan opts ctx st).traces ctx.trace_id = some tr ∧
      tr.sampling_priority = ctx.propagated_sampling_priority ∧
      tr.sampling_priority_locked = ctx.propagated_sampling_priority.isSome := by
  refine ⟨{ all_spans := insertId [] ctx.span_id,
            sampling_priority := ctx.propagated_sampling_priority,
            sampling_priority_locked := ctx.propagated_sampling_priority.isSome,
            origin := if ctx.origin ≠ "" then ctx.origin else "",
            hostname := opts.hostname,
            analytics_rate := opts.analytics_rate }, ?_, rfl, rfl⟩
  simp only [registerSpan, h]
  exact lookupTrace_append_fresh _ h

/-- C4: on an unlocked registered trace, setting a concrete priority
stores it, and the lock is engaged exactly for the automatic
(`Sampler*`) values, not for the user-level (`User*`) ones. -/
theorem claim4_unlocked_set_lock_rules
    (st : BufferState) (tid : Nat) (tr : PendingTrace) (p : SamplingPriority)
    (h : lookupTrace st.traces tid = some tr)
    (hl : tr.sampling_priority_locked = false) :
    ∃ tr', lookupTrace (setSamplingPriorityImpl st tid (some p)).1.traces tid = some tr' ∧
      tr'.sampling_priority = some p ∧
      tr'.sampling_priority_locked
        = decide (p = SamplingPriority.SamplerDrop ∨ p = SamplingPriority.SamplerKeep) := by
  rw [setSP_unlocked_some_eq p h hl]
  refine ⟨_, lookupTrace_update_self _ h, ?_, ?_⟩
  · by_cases hp : p = SamplingPriority.SamplerDrop ∨ p = SamplingPriority.SamplerKeep <;>
      simp [hp]
  · by_cases hp : p = SamplingPriority.SamplerDrop ∨ p = SamplingPriority.SamplerKeep <;>
      simp [hp, hl]

/-- C5 counterexample: on a locked trace, a `setSamplingPriority` call
with an absent (null) priority — which is neither `UserKeep` nor
`UserDrop` — still emits the diagnostic, so "logged iff the supplied
value is UserKeep or UserDrop" fails. -/
theorem claim5_counterexample_null_also_logs :
    (setSamplingPriorityImpl lockedState 1 none).1.log
      = lockedState.log ++ ["sampling priority already set and cannot be reassigned"] ∧
    (none : OptionalSamplingPriority) ≠ some SamplingPriority.UserKeep ∧
    (none : OptionalSamplingPriority) ≠ some SamplingPriority.UserDrop := by
  refine ⟨rfl, ?_, ?_⟩ <;> simp

/-- C5 (amended): on a locked registered trace, the diagnostic is logged
exactly when the supplied value is absent, `UserKeep`, or `UserDrop`;
`SamplerKeep` and `SamplerDrop` are ignored silently. -/
theorem claim5_locked_log_rule
    (st : BufferState) (tid : Nat) (tr : PendingTrace) (p : OptionalSamplingPriority)
    (h : lookupTrace st.traces tid = some tr)
    (hl : tr.sampling_priority_locked = true) :
    (setSamplingPriorityImpl st tid p).1.log
      = if p = none ∨ p = some SamplingPriority.UserKeep ∨ p = some SamplingPriority.UserDrop
        then st.log ++ ["sampling priority already set and cannot be reassigned"]
        else st.log := by
  rw [setSP_locked_eq p h hl]

/-- C6: a `finishSpan` call for an unknown trace, or for a span id never
registered in its trace, logs one error message and is otherwise a
no-op: the registry and the written traces are untouched. -/
theorem claim6_finish_unknown_is_noop
    (sampler : Sampler) (opts : WritingSpanBufferOptions) (sp : SpanData) (st : BufferState)
    (h : lookupTrace st.traces sp.trace_id = none ∨
         ∃ tr, lookupTrace st.traces sp.trace_id = some tr ∧ sp.span_id ∉ tr.all_spans) :
    (finishSpan sampler opts sp st).traces = st.traces ∧
    (finishSpan sampler opts sp st).written = st.written ∧
    ∃ msg, (finishSpan sampler opts sp st).log = st.log ++ [msg] := by
  rcases h with h | ⟨tr, h, hm⟩
  · exact ⟨by simp [finishSpan, h], by simp [finishSpan, h],
      "Missing trace for finished span", by simp [finishSpan, h]⟩
  · exact ⟨by simp [finishSpan, h, hm], by simp [finishSpan, h, hm],
      "A Span that was not registered was submitted to WritingSpanBuffer",
      by simp [finishSpan, h, hm]⟩

/-- C8: when no configured rule matches the service and name, the rules
sampler delegates to priority sampling: the returned result has unset
rule and limiter rates, a set priority rate, and an automatic
(`Sampler*`) priority, never a user-level one. -/
theorem claim8_no_match_fallback
    (rules : List Rule) (config : List (String × ℚ)) (hash : Nat → ℚ)
    (limiterAllows : Bool) (limiterRate : ℚ)
    (env service name : String) (trace_id : Nat)
    (h : matchRules rules service name = none) :
    (rulesSample rules config hash limiterAllows limiterRate env service name trace_id).rule_rate
        = none ∧
    (rulesSample rules config hash limiterAllows limiterRate env service name trace_id).limiter_rate
        = none ∧
    (rulesSample rules config hash limiterAllows limiterRate env service name
        trace_id).priority_rate.isSome = true ∧
    ((rulesSample rules config hash limiterAllows limiterRate env service name
          trace_id).sampling_priority = some SamplingPriority.SamplerKeep ∨
     (rulesSample rules config hash limiterAllows limiterRate env service name
          trace_id).sampling_priority = some SamplingPriority.SamplerDrop) := by
  have hrs : rulesSample rules config hash limiterAllows limiterRate env service name trace_id
      = prioritySample config hash env service trace_id := by
    simp [rulesSample, h]
  rw [hrs]
  refine ⟨rfl, rfl, rfl, ?_⟩
  by_cases hk : hash trace_id
      < (mapLookup config ("service:" ++ service ++ ",env:" ++ env)).getD 1
  · left
    simp [prioritySample, hk]
  · right
    simp [prioritySample, hk]

end DD

namespace DD

/-- C9: on an unlocked registered trace, setting an absent (null)
priority clears the stored priority, leaves the lock disengaged, and
returns an absent priority. -/
theorem claim9_clear_priority_unlocked
    (st : BufferState) (tid : Nat) (tr : PendingTrace)
    (h : lookupTrace st.traces tid = some tr)
    (hl : tr.sampling_priority_locked = false) :
    ∃ tr', lookupTrace (setSamplingPriorityImpl st tid none).1.traces tid = some tr' ∧
      tr'.sampling_priority = none ∧
      tr'.sampling_priority_locked = false ∧
      (setSamplingPriorityImpl st tid none).2 = none := by
  rw [setSP_unlocked_none_eq h hl]
  exact ⟨_, lookupTrace_update_self _ h, rfl, hl, rfl⟩

/-- C10: the `finishSpan` call that completes a trace consults the
sampler only through the completing span — the one just appended to the
finished list: any sampler agreeing with it on that span's environment,
service, name and trace id yields the very same resulting state.
Moreover the sampler's rates are recorded into the trace's
`sample_result` when the stored priority is unset, and the assignment
step is a pure no-op when the priority is already set. -/
theorem claim10_completing_span_drives_sampler
    (sampler : Sampler) (opts : WritingSpanBufferOptions)
    (st : BufferState) (tid : Nat) (tr : PendingTrace) (sp : SpanData)
    (h1 : lookupTrace st.traces tid = some tr) (h2 : sp.trace_id = tid)
    (h3 : sp.span_id ∈ tr.all_spans)
    (h4 : tr.finished_spans.length + 1 = tr.all_spans.length) :
    (∀ g : Sampler,
        g sp.env sp.service sp.name tid = sampler sp.env sp.service sp.name tid →
        finishSpan g opts sp st = finishSpan sampler opts sp st) ∧
    (∀ (st' : BufferState) (tr' : PendingTrace),
        lookupTrace st'.traces tid = some tr' → tr'.sampling_priority = none →
        ∃ tr'', lookupTrace (assignSamplingPriorityImpl sampler sp st').1.traces tid
            = some tr'' ∧
          tr''.sample_result.rule_rate = (sampler sp.env sp.service sp.name tid).rule_rate ∧
          tr''.sample_result.limiter_rate
            = (sampler sp.env sp.service sp.name tid).limiter_rate ∧
          tr''.sample_result.priority_rate
            = (sampler sp.env sp.service sp.name tid).priority_rate) ∧
    (∀ (st' : BufferState) (tr' : PendingTrace),
        lookupTrace st'.traces tid = some tr' → tr'.sampling_priority ≠ none →
        (assignSamplingPriorityImpl sampler sp st').1 = st') := by
  subst h2
  refine ⟨?_, ?_, ?_⟩
  · intro g hg
    have hlast := getLast_append_singleton tr.finished_spans sp
    have hstepS : finishSpan sampler opts sp st
        = unbufferAndWriteTrace opts sp.trace_id
            (pendingTraceFinish
              (assignSamplingPriorityImpl sampler sp
                { st with traces :=
                            updateTrace st.traces sp.trace_id
                              { tr with finished_spans := tr.finished_spans ++ [sp] } }).1
              sp.trace_id) := by
      simp [finishSpan, h1, h3, h4, hlast]
    have hstepG : finishSpan g opts sp st
        = unbufferAndWriteTrace opts sp.trace_id
            (pendingTraceFinish
              (assignSamplingPriorityImpl g sp
                { st with traces :=
                            updateTrace st.traces sp.trace_id
                              { tr with finished_spans := tr.finished_spans ++ [sp] } }).1
              sp.trace_id) := by
      simp [finishSpan, h1, h3, h4, hlast]
    rw [hstepS, hstepG]
    have hsg : assignSamplingPriorityImpl g sp
        { st with traces :=
                    updateTrace st.traces sp.trace_id
                      { tr with finished_spans := tr.finished_spans ++ [sp] } }
        = assignSamplingPriorityImpl sampler sp
            { st with traces :=
                        updateTrace st.traces sp.trace_id
                          { tr with finished_spans := tr.finished_spans ++ [sp] } } := by
      simp only [assignSamplingPriorityImpl]
      rw [hg]
    rw [hsg]
  · intro st' tr' h' hp'
    obtain ⟨tr'', ht'', _, _, hru, hli, hpr, _, _, _⟩ := assign_of_unset h' rfl hp'
    exact ⟨tr'', ht'', hru, hli, hpr⟩
  · intro st' tr' h' hp'
    rw [assign_of_set h' rfl hp']

end DD

namespace DD

set_option maxHeartbeats 4000000 in
/-- C7: on trace finalization, exactly the root spans (parent id zero or
parent id not registered in the trace) receive the sampling-priority,
hostname, analytics and rate tags, each under its presence condition,
while every span — root or not — receives the origin tag when the
trace's origin is non-empty. -/
theorem claim7_root_tag_placement (tr : PendingTrace) (s : SpanData) :
    (PendingTrace.finish tr).finished_spans = tr.finished_spans.map (finalizeSpan tr) ∧
    mapLookup (finalizeSpan tr s).meta datadog_origin_tag
      = (if tr.origin = "" then mapLookup s.meta datadog_origin_tag else some tr.origin) ∧
    (is_root s tr.all_spans = false →
      (finalizeSpan tr s).metrics = s.metrics ∧
      mapLookup (finalizeSpan tr s).meta datadog_hostname_tag
        = mapLookup s.meta datadog_hostname_tag) ∧
    (is_root s tr.all_spans = true →
      mapLookup (finalizeSpan tr s).metrics sampling_priority_metric
        = (match tr.sampling_priority with
           | some p => some ((p.toInt : ℚ))
           | none => mapLookup s.metrics sampling_priority_metric) ∧
      mapLookup (finalizeSpan tr s).meta datadog_hostname_tag
        = (if tr.hostname = "" then mapLookup s.meta datadog_hostname_tag
           else some tr.hostname) ∧
      mapLookup (finalizeSpan tr s).metrics event_sample_rate_metric
        = (match tr.analytics_rate with
           | some r => some ((mapLookup s.metrics event_sample_rate_metric).getD r)
           | none => mapLookup s.metrics event_sample_rate_metric) ∧
      mapLookup (finalizeSpan tr s).metrics rules_sampler_applied_rate
        = (match tr.sample_result.rule_rate with
           | some r => some r
           | none => mapLookup s.metrics rules_sampler_applied_rate) ∧
      mapLookup (finalizeSpan tr s).metrics rules_sampler_limiter_rate
        = (match tr.sample_result.limiter_rate with
           | some r => some r
           | none => mapLookup s.metrics rules_sampler_limiter_rate) ∧
      mapLookup (finalizeSpan tr s).metrics priority_sampler_applied_rate
        = (match tr.sample_result.priority_rate with
           | some r => some r
           | none => mapLookup s.metrics priority_sampler_applied_rate)) := by
  have d12 : sampling_priority_metric ≠ event_sample_rate_metric := by decide
  have d13 : sampling_priority_metric ≠ rules_sampler_applied_rate := by decide
  have d14 : sampling_priority_metric ≠ rules_sampler_limiter_rate := by decide
  have d15 : sampling_priority_metric ≠ priority_sampler_applied_rate := by decide
  have d21 : event_sample_rate_metric ≠ sampling_priority_metric := by decide
  have d23 : event_sample_rate_metric ≠ rules_sampler_applied_rate := by decide
  have d24 : event_sample_rate_metric ≠ rules_sampler_limiter_rate := by decide
  have d25 : event_sample_rate_metric ≠ priority_sampler_applied_rate := by decide
  have d31 : rules_sampler_applied_rate ≠ sampling_priority_metric := by decide
  have d32 : rules_sampler_applied_rate ≠ event_sample_rate_metric := by decide
  have d34 : rules_sampler_applied_rate ≠ rules_sampler_limiter_rate := by decide
  have d35 : rules_sampler_applied_rate ≠ priority_sampler_applied_rate := by decide
  have d41 : rules_sampler_limiter_rate ≠ sampling_priority_metric := by decide
  have d42 : rules_sampler_limiter_rate ≠ event_sample_rate_metric := by decide
  have d43 : rules_sampler_limiter_rate ≠ rules_sampler_applied_rate := by decide
  have d45 : rules_sampler_limiter_rate ≠ priority_sampler_applied_rate := by decide
  have d51 : priority_sampler_applied_rate ≠ sampling_priority_metric := by decide
  have d52 : priority_sampler_applied_rate ≠ event_sample_rate_metric := by decide
  have d53 : priority_sampler_applied_rate ≠ rules_sampler_applied_rate := by decide
  have d54 : priority_sampler_applied_rate ≠ rules_sampler_limiter_rate := by decide
  have dmh : datadog_hostname_tag ≠ datadog_origin_tag := by decide
  have dmo : datadog_origin_tag ≠ datadog_hostname_tag := by decide
  refine ⟨rfl, ?_⟩
  rcases hsp : tr.sampling_priority with _ | p <;>
  rcases har : tr.analytics_rate with _ | ar <;>
  rcases hrr : tr.sample_result.rule_rate with _ | rr <;>
  rcases hlr : tr.sample_result.limiter_rate with _ | lr <;>
  rcases hpr : tr.sample_result.priority_rate with _ | pr <;>
  rcases hev : mapLookup s.metrics event_sample_rate_metric with _ | ev <;>
  by_cases ho : tr.origin = "" <;>
  by_cases hh : tr.hostname = "" <;>
  by_cases hr : is_root s tr.all_spans = true <;>
  simp [finalizeSpan, finish_root_span, finish_span, hsp, har, hrr, hlr, hpr, hev, ho, hh, hr,
    mapLookup_mapAssign_self,
    mapLookup_mapAssign_other _ _ d12, mapLookup_mapAssign_other _ _ d13,
    mapLookup_mapAssign_other _ _ d14, mapLookup_mapAssign_other _ _ d15,
    mapLookup_mapAssign_other _ _ d21, mapLookup_mapAssign_other _ _ d23,
    mapLookup_mapAssign_other _ _ d24, mapLookup_mapAssign_other _ _ d25,
    mapLookup_mapAssign_other _ _ d31, mapLookup_mapAssign_other _ _ d32,
    mapLookup_mapAssign_other _ _ d34, mapLookup_mapAssign_other _ _ d35,
    mapLookup_mapAssign_other _ _ d41, mapLookup_mapAssign_other _ _ d42,
    mapLookup_mapAssign_other _ _ d43, mapLookup_mapAssign_other _ _ d45,
    mapLookup_mapAssign_other _ _ d51, mapLookup_mapAssign_other _ _ d52,
    mapLookup_mapAssign_other _ _ d53, mapLookup_mapAssign_other _ _ d54,
    mapLookup_mapAssign_other _ _ dmh, mapLookup_mapAssign_other _ _ dmo]

end DD

namespace DD

/-- Witness for C1: a concrete two-span trace finished child-first is
erased and written exactly once. -/
theorem claim1_witness :
    lookupTrace (finishAll samp0 opts0 [childSpan, rootSpan] pairState).traces 1 = none ∧
    (finishAll samp0 opts0 [childSpan, rootSpan] pairState).written.length
      = pairState.written.length + (if opts0.enabled then 1 else 0) :=
  ⟨(claim1_finalization_exactly_once samp0 opts0 1 pairTr [childSpan, rootSpan] pairState
      rfl rfl (by decide) (by decide) (by decide)).1,
   (claim1_finalization_exactly_once samp0 opts0 1 pairTr [childSpan, rootSpan] pairState
      rfl rfl (by decide) (by decide) (by decide)).2.1⟩

/-- Witness for C2 at a concrete locked trace and a user-level value. -/
theorem claim2_witness :
    lookupTrace (setSamplingPriorityImpl lockedState 1
        (some SamplingPriority.UserDrop)).1.traces 1 = some lockedTr :=
  claim2_locked_priority_immutable lockedState 1 lockedTr (some SamplingPriority.UserDrop)
    rfl rfl

/-- Witness for C3 at a concrete context carrying a propagated priority. -/
theorem claim3_witness :
    ∃ tr, lookupTrace (registerSpan opts0 ctxW ({} : BufferState)).traces ctxW.trace_id
        = some tr ∧
      tr.sampling_priority = ctxW.propagated_sampling_priority ∧
      tr.sampling_priority_locked = ctxW.propagated_sampling_priority.isSome :=
  claim3_propagated_priority_locks opts0 ctxW {} rfl

/-- Witness for C4 at a concrete unlocked trace and an automatic value. -/
theorem claim4_witness :
    ∃ tr', lookupTrace (setSamplingPriorityImpl openState 3
        (some SamplingPriority.SamplerKeep)).1.traces 3 = some tr' ∧
      tr'.sampling_priority = some SamplingPriority.SamplerKeep ∧
      tr'.sampling_priority_locked
        = decide (SamplingPriority.SamplerKeep = SamplingPriority.SamplerDrop ∨
                  SamplingPriority.SamplerKeep = SamplingPriority.SamplerKeep) :=
  claim4_unlocked_set_lock_rules openState 3 openTr SamplingPriority.SamplerKeep rfl rfl

/-- Witness for the amended C5 at a concrete locked trace and an
automatic value (silently ignored). -/
theorem claim5_witness :
    (setSamplingPriorityImpl lockedState 1 (some SamplingPriority.SamplerDrop)).1.log
      = if (some SamplingPriority.SamplerDrop : OptionalSamplingPriority) = none ∨
           (some SamplingPriority.SamplerDrop : OptionalSamplingPriority)
             = some SamplingPriority.UserKeep ∨
           (some SamplingPriority.SamplerDrop : OptionalSamplingPriority)
             = some SamplingPriority.UserDrop
        then lockedState.log ++ ["sampling priority already set and cannot be reassigned"]
        else lockedState.log :=
  claim5_locked_log_rule lockedState 1 lockedTr (some SamplingPriority.SamplerDrop) rfl rfl

/-- Witness for C6 at a concrete span with an unknown trace id. -/
theorem claim6_witness :
    (finishSpan samp0 opts0 orphanSpan lockedState).traces = lockedState.traces ∧
    (finishSpan samp0 opts0 orphanSpan lockedState).written = lockedState.written ∧
    ∃ msg, (finishSpan samp0 opts0 orphanSpan lockedState).log = lockedState.log ++ [msg] :=
  claim6_finish_unknown_is_noop samp0 opts0 orphanSpan lockedState (Or.inl rfl)

/-- Witness for C7 at a concrete parent/child pair: the child's metrics
are untouched while the parent receives the sampling-priority metric. -/
theorem claim7_witness :
    (finalizeSpan tagTr childSpan).metrics = childSpan.metrics ∧
    mapLookup (finalizeSpan tagTr rootSpan).metrics sampling_priority_metric
      = (match tagTr.sampling_priority with
         | some p => some ((p.toInt : ℚ))
         | none => mapLookup rootSpan.metrics sampling_priority_metric) :=
  ⟨((claim7_root_tag_placement tagTr childSpan).2.2.1 (by decide)).1,
   ((claim7_root_tag_placement tagTr rootSpan).2.2.2 (by decide)).1⟩

/-- Witness for C8 at a concrete non-matching configuration. -/
theorem claim8_witness :
    (rulesSample rulesW [] hashW true 0 "env" "svc" "op" 42).rule_rate = none ∧
    (rulesSample rulesW [] hashW true 0 "env" "svc" "op" 42).limiter_rate = none ∧
    (rulesSample rulesW [] hashW true 0 "env" "svc" "op" 42).priority_rate.isSome = true ∧
    ((rulesSample rulesW [] hashW true 0 "env" "svc" "op" 42).sampling_priority
        = some SamplingPriority.SamplerKeep ∨
     (rulesSample rulesW [] hashW true 0 "env" "svc" "op" 42).sampling_priority
        = some SamplingPriority.SamplerDrop) :=
  claim8_no_match_fallback rulesW [] hashW true 0 "env" "svc" "op" 42 (by decide)

/-- Witness for C9 at a concrete unlocked trace. -/
theorem claim9_witness :
    ∃ tr', lookupTrace (setSamplingPriorityImpl openState 3 none).1.traces 3 = some tr' ∧
      tr'.sampling_priority = none ∧
      tr'.sampling_priority_locked = false ∧
      (setSamplingPriorityImpl openState 3 none).2 = none :=
  claim9_clear_priority_unlocked openState 3 openTr rfl rfl

/-- Witness for C10 at a concrete completing span whose trace priority is
already set: the assignment step changes nothing. -/
theorem claim10_witness :
    (assignSamplingPriorityImpl samp0 oneSpan oneState).1 = oneState :=
  (claim10_completing_span_drives_sampler samp0 opts0 oneState 1 oneTr oneSpan rfl rfl
      (by decide) (by decide)).2.2 oneState oneTr rfl (by decide)

end DD
